import Mathlib

/-!
Verification development for the `mcp-universal-framework` repository.

Shallow embedding of the tool registration / validation / execution core
(`src/mcp_framework/core/__init__.py`) and the error taxonomy and handler
(`src/mcp_framework/errors/__init__.py`).  Python dictionaries are embedded
as insertion-ordered association lists (matching CPython dict semantics:
assignment to an existing key replaces the value in place, assignment to a
fresh key appends at the end).  Python exceptions are embedded as values
carrying their class ancestry (method resolution order) so that
`isinstance` dispatch can be expressed.  Machine-level aspects (actual
stack traces, the blocking behaviour of the transport loop) are embedded
as opaque markers or events.
-/

namespace MCPFramework

/-- Enumeration `ErrorCode` from `errors/__init__.py` (lines 14-45). -/
inductive ErrorCode where
  | UNKNOWN_ERROR
  | INVALID_REQUEST
  | MISSING_PARAMETER
  | INVALID_PARAMETER
  | AUTH_FAILED
  | AUTH_MISSING
  | AUTH_EXPIRED
  | PERMISSION_DENIED
  | API_ERROR
  | API_TIMEOUT
  | API_RATE_LIMITED
  | API_UNAVAILABLE
  | TOOL_NOT_FOUND
  | TOOL_EXECUTION_FAILED
  | TOOL_TIMEOUT
  | RESOURCE_NOT_FOUND
  | RESOURCE_ACCESS_DENIED
  | CONFIG_MISSING
  | CONFIG_INVALID
deriving DecidableEq, Repr

/-- The `.value` string of each `ErrorCode` enum member. -/
def ErrorCode.value : ErrorCode → String
  | .UNKNOWN_ERROR => "UNKNOWN_ERROR"
  | .INVALID_REQUEST => "INVALID_REQUEST"
  | .MISSING_PARAMETER => "MISSING_PARAMETER"
  | .INVALID_PARAMETER => "INVALID_PARAMETER"
  | .AUTH_FAILED => "AUTH_FAILED"
  | .AUTH_MISSING => "AUTH_MISSING"
  | .AUTH_EXPIRED => "AUTH_EXPIRED"
  | .PERMISSION_DENIED => "PERMISSION_DENIED"
  | .API_ERROR => "API_ERROR"
  | .API_TIMEOUT => "API_TIMEOUT"
  | .API_RATE_LIMITED => "API_RATE_LIMITED"
  | .API_UNAVAILABLE => "API_UNAVAILABLE"
  | .TOOL_NOT_FOUND => "TOOL_NOT_FOUND"
  | .TOOL_EXECUTION_FAILED => "TOOL_EXECUTION_FAILED"
  | .TOOL_TIMEOUT => "TOOL_TIMEOUT"
  | .RESOURCE_NOT_FOUND => "RESOURCE_NOT_FOUND"
  | .RESOURCE_ACCESS_DENIED => "RESOURCE_ACCESS_DENIED"
  | .CONFIG_MISSING => "CONFIG_MISSING"
  | .CONFIG_INVALID => "CONFIG_INVALID"

/-- A Python exception value as the framework observes it.  `mro` is the
list of class names the value is an instance of, most specific first
(e.g. `["ValidationError", "MCPError", "Exception"]`); `message` is what
`str(e)` renders (for `MCPError` that is the message passed to the
constructor); `code` and `details` are the `MCPError` payload fields
(meaningful exactly when `"MCPError"` occurs in `mro`; for foreign
exceptions they are inert defaults); `original` embeds the
`original_error` field (`errors/__init__.py` line 86). -/
inductive PyExn where
  | mk (mro : List String) (message : String) (code : ErrorCode)
       (details : List (String × String)) (original : Option PyExn)

/-- Class-ancestry list of an exception. -/
def PyExn.mro : PyExn → List String
  | .mk m _ _ _ _ => m

/-- The `str(e)` rendering of an exception. -/
def PyExn.message : PyExn → String
  | .mk _ m _ _ _ => m

/-- The `code` field of an `MCPError` (inert default for foreign exceptions). -/
def PyExn.code : PyExn → ErrorCode
  | .mk _ _ c _ _ => c

/-- The `details` mapping of an `MCPError`. -/
def PyExn.details : PyExn → List (String × String)
  | .mk _ _ _ d _ => d

/-- The `original_error` field of an `MCPError`. -/
def PyExn.original : PyExn → Option PyExn
  | .mk _ _ _ _ o => o

/-- Runtime type name `type(e).__name__`: the head of the ancestry list. -/
def PyExn.typeName (e : PyExn) : String := e.mro.headD "object"

/-- Python `isinstance(e, C)`: membership of class `C` in the value's
class ancestry. -/
def isinstance (e : PyExn) (c : String) : Bool := decide (c ∈ e.mro)

/-- Detail-entry builder reflecting the Python truthiness guards
`if parameter: details[...] = parameter` in `ValidationError.__init__`
(`errors/__init__.py` lines 100-105): `None` and the empty string both
produce no entry. -/
def optEntry (k : String) (v : Option String) : List (String × String) :=
  match v with
  | some s => if s == "" then [] else [(k, s)]
  | none => []

/-- Constructor `ValidationError(message, parameter, expected_type)`
(`errors/__init__.py` lines 97-111): an `MCPError` subclass instance whose
code is always `INVALID_PARAMETER`. -/
def mkValidationError (message : String) (parameter expected_type : Option String) : PyExn :=
  .mk ["ValidationError", "MCPError", "Exception"] message ErrorCode.INVALID_PARAMETER
      (optEntry "parameter" parameter ++ optEntry "expected_type" expected_type) none

/-- Constructor `MCPError(message, code, details, original_error)` with the
defaults of `errors/__init__.py` lines 77-86: `code` defaults to
`UNKNOWN_ERROR`, `details` to the empty mapping. -/
def mkMCPError (message : String) (original : Option PyExn) : PyExn :=
  .mk ["MCPError", "Exception"] message ErrorCode.UNKNOWN_ERROR [] original

/-- Dataclass `ErrorResponse` (`errors/__init__.py` lines 48-54). -/
structure ErrorResponse where
  code : String
  message : String
  details : List (String × String)
  trace_id : Option String
deriving DecidableEq, Repr

/-- A Python runtime value, as coarsely as the framework inspects it.
`pyFloat` carries only its textual rendering (no floating-point
arithmetic is performed anywhere in the embedded code); `pyObj` is any
value of a non-JSON-primitive class, carrying its `str()` rendering. -/
inductive PyVal where
  | pyStr (s : String)
  | pyBool (b : Bool)
  | pyInt (n : Int)
  | pyFloat (r : String)
  | pyList (xs : List PyVal)
  | pyDict (kvs : List (String × PyVal))
  | pyNone
  | pyObj (r : String)

/-- Python `isinstance(v, str)`. -/
def isinstance_str : PyVal → Bool
  | .pyStr _ => true
  | _ => false

/-- Python `isinstance(v, int)`.  In Python `bool` is a subclass of
`int`, so `True` and `False` satisfy this check. -/
def isinstance_int : PyVal → Bool
  | .pyInt _ => true
  | .pyBool _ => true
  | _ => false

/-- Python `isinstance(v, (int, float))` (again `bool` passes via `int`). -/
def isinstance_int_float : PyVal → Bool
  | .pyInt _ => true
  | .pyBool _ => true
  | .pyFloat _ => true
  | _ => false

/-- Python `isinstance(v, bool)`. -/
def isinstance_bool : PyVal → Bool
  | .pyBool _ => true
  | _ => false

/-- Python `isinstance(v, list)`. -/
def isinstance_list : PyVal → Bool
  | .pyList _ => true
  | _ => false

/-- Python `isinstance(v, dict)`. -/
def isinstance_dict : PyVal → Bool
  | .pyDict _ => true
  | _ => false

/-- Python `isinstance(v, (dict, list, str, int, float, bool, type(None)))`
as used by `_execute_tool` (`core/__init__.py` line 219). -/
def is_json_primitive : PyVal → Bool
  | .pyObj _ => false
  | _ => true

/-- Lookup in an insertion-ordered Python dict: `d[k]` / `d.get(k)`. -/
def dictGet {α : Type} (d : List (String × α)) (k : String) : Option α :=
  (d.find? (fun kv => kv.1 == k)).map (fun kv => kv.2)

/-- Key-membership test `k in d` on a Python dict. -/
def dictHas {α : Type} (d : List (String × α)) (k : String) : Bool :=
  d.any (fun kv => kv.1 == k)

/-- Assignment `d[k] = v` on an insertion-ordered Python dict: replace in
place when the key exists, append otherwise. -/
def dictSet {α : Type} (d : List (String × α)) (k : String) (v : α) : List (String × α) :=
  if d.any (fun kv => kv.1 == k)
  then d.map (fun kv => if kv.1 == k then (k, v) else kv)
  else d ++ [(k, v)]

/-- Coarse annotation classes appearing as members of a `typing.Union`.
Python flattens nested unions, so union members are never unions
themselves; a subscripted generic member (e.g. `List[int]`) or any other
annotation outside the six-entry `type_mapping` table is `otherB`. -/
inductive PyBase where
  | str
  | int
  | float
  | bool
  | list
  | dict
  | noneType
  | otherB (name : String)
deriving DecidableEq, Repr

/-- A Python type annotation as `_type_to_schema` inspects it: a bare
class, a `typing.Union` (which covers `Optional[T] = Union[T, None]`), or
anything else (`otherT`), which the six-entry table does not recognize. -/
inductive PyType where
  | base (b : PyBase)
  | union (args : List PyBase)
  | otherT (name : String)
deriving DecidableEq, Repr

/-- Effect of `_type_to_schema` on a bare (non-union) annotation: the
fixed `type_mapping` table of `core/__init__.py` lines 178-185, with
`type_mapping.get(annotation, ...)` defaulting to `"string"` for
unrecognized classes (including `type(None)`).  Schemas are represented
by their `"type"` tag since every schema the inference produces is
exactly a one-entry mapping. -/
def base_to_schema : PyBase → String
  | .str => "string"
  | .int => "integer"
  | .float => "number"
  | .bool => "boolean"
  | .list => "array"
  | .dict => "object"
  | .noneType => "string"
  | .otherB _ => "string"

/-- Method `BaseMCPServer._type_to_schema` (`core/__init__.py` lines
176-195): a `Union` annotation with exactly one non-`None` member is
unwrapped to that member's tag; any other union, and any unrecognized
annotation, falls through to the `type_mapping.get(annotation, string)`
default. -/
def type_to_schema : PyType → String
  | .base b => base_to_schema b
  | .union args =>
      match args.filter (fun a => !decide (a = PyBase.noneType)) with
      | [t] => base_to_schema t
      | _ => "string"
  | .otherT _ => "string"

/-- One declared parameter of a callable's signature, as
`inspect.signature` reports it: name, optional annotation
(`none` embeds `inspect.Parameter.empty`), and whether a default value is
declared. -/
structure SigParam where
  name : String
  annotation : Option PyType
  hasDefault : Bool

/-- The type tag inferred for a single parameter
(`core/__init__.py` lines 159-163): default `"string"` when the
annotation is absent, else `_type_to_schema` of the annotation. -/
def paramSchemaOf (p : SigParam) : String :=
  match p.annotation with
  | none => "string"
  | some t => type_to_schema t

/-- The parameter-schema dictionary built by `_extract_parameters`:
`properties` maps each parameter name to its type tag (in declaration
order) and `required` lists the names without defaults (in declaration
order).  The enclosing `{"type": "object", ...}` wrapper is constant and
omitted. -/
structure Parameters where
  properties : List (String × String)
  required : List String
deriving DecidableEq, Repr

/-- Method `BaseMCPServer._extract_parameters` (`core/__init__.py` lines
146-174): walk the declared parameters in order, skip `self`, record the
inferred tag for each, and mark those without a default as required. -/
def extract_parameters : List SigParam → Parameters
  | [] => { properties := [], required := [] }
  | p :: rest =>
      let r := extract_parameters rest
      if p.name == "self" then r
      else
        { properties := (p.name, paramSchemaOf p) :: r.properties,
          required := if p.hasDefault then r.required else p.name :: r.required }

/-- Argument mapping passed to a tool call (a Python keyword dict). -/
def Args := List (String × PyVal)

/-- A registered callable: from an argument mapping it either returns a
value or raises an exception.  Whether the callable is a coroutine only
determines `await` vs direct call in `_execute_tool`; the produced value
is the same either way, so the embedding uses one function type. -/
def ToolFn := Args → Except PyExn PyVal

/-- A Python callable as the `tool` decorator introspects it:
`__name__`, `__doc__`, the declared signature, coroutine-ness, and the
behaviour when invoked. -/
structure PyFunc where
  name : String
  doc : Option String
  sig : List SigParam
  isAsync : Bool
  body : ToolFn

/-- Dataclass `ToolDefinition` (`core/__init__.py` lines 38-45). -/
structure ToolDefinition where
  name : String
  function : ToolFn
  description : String
  parameters : Parameters
  async_tool : Bool

/-- The registry state of `BaseMCPServer` relevant to the claims: the
insertion-ordered tool dictionary and the resource dictionary
(`core/__init__.py` lines 74-75). -/
structure BaseMCPServer where
  name : String
  tools : List (String × ToolDefinition)
  resources : List (String × ToolFn)

/-- Python falsy-or chaining `x or fallback` for optional strings:
`None` and `""` both select the fallback. -/
def resolveOr (x : Option String) (fallback : String) : String :=
  match x with
  | some s => if s == "" then fallback else s
  | none => fallback

/-- The `tool` decorator `BaseMCPServer.tool` (`core/__init__.py` lines
103-131): resolve the registration name (`name or func.__name__`) and
description (`description or func.__doc__ or f"Tool: {tool_name}"`),
infer the parameter schema from the signature, and store the
`ToolDefinition` under the resolved name in the tool dictionary. -/
def registerTool (s : BaseMCPServer) (name description : Option String) (f : PyFunc) :
    BaseMCPServer :=
  let tool_name := resolveOr name f.name
  let tool_description := resolveOr description (resolveOr f.doc ("Tool: " ++ tool_name))
  let td : ToolDefinition :=
    { name := tool_name, function := f.body, description := tool_description,
      parameters := extract_parameters f.sig, async_tool := f.isAsync }
  { s with tools := dictSet s.tools tool_name td }

/-- Method `BaseMCPServer._validate_type` (`core/__init__.py` lines
255-267): the `type_validators` dispatch table; an expected tag outside
the table leaves `validator` as `None` and the method returns `True`. -/
def validate_type (v : PyVal) (expected : String) : Bool :=
  if expected == "string" then isinstance_str v
  else if expected == "integer" then isinstance_int v
  else if expected == "number" then isinstance_int_float v
  else if expected == "boolean" then isinstance_bool v
  else if expected == "array" then isinstance_list v
  else if expected == "object" then isinstance_dict v
  else true

/-- First pass of `_validate_arguments` (`core/__init__.py` lines
236-242): the first required name not present as a key of the argument
mapping, if any. -/
def findMissing (required : List String) (args : Args) : Option String :=
  required.find? (fun r => !(args.any (fun kv => kv.1 == r)))

/-- Second pass of `_validate_arguments` (`core/__init__.py` lines
244-253): walk the supplied arguments in order; the first one whose name
has a declared tag that its value fails gives (name, expected tag).
Arguments without a declared tag are ignored. -/
def findTypeError (properties : List (String × String)) (args : Args) :
    Option (String × String) :=
  args.findSome? (fun kv =>
    match dictGet properties kv.1 with
    | some expected => if validate_type kv.2 expected then none else some (kv.1, expected)
    | none => none)

/-- Method `BaseMCPServer._validate_arguments` (`core/__init__.py` lines
231-253): missing-required check first (raising
`ValidationError("Missing required parameter: ...", parameter=p)`), then
type check (raising `ValidationError("Invalid type for parameter ...",
parameter=p, expected_type=t)`). -/
def validate_arguments (td : ToolDefinition) (args : Args) : Except PyExn Unit :=
  match findMissing td.parameters.required args with
  | some p =>
      Except.error (mkValidationError ("Missing required parameter: " ++ p) (some p) none)
  | none =>
      match findTypeError td.parameters.properties args with
      | some pe =>
          Except.error (mkValidationError ("Invalid type for parameter " ++ pe.1)
            (some pe.1) (some pe.2))
      | none => Except.ok ()

/-- Return-value coercion of `_execute_tool` (`core/__init__.py` lines
218-220): JSON-primitive results pass through; any other object is
replaced by the single-key mapping with its `str()` rendering. -/
def coerce_result (v : PyVal) : PyVal :=
  match v with
  | .pyObj r => .pyDict [("result", PyVal.pyStr r)]
  | w => w

/-- An apostrophe as a string, used in the not-found message. -/
def sq : String := String.singleton (Char.ofNat 39)

/-- Method `BaseMCPServer._execute_tool` (`core/__init__.py` lines
197-229).  The not-found check precedes the `try` block and raises a
`ValidationError`; inside the block, argument validation runs, then the
callable; the `except` clause re-raises `MCPError` instances unchanged
and wraps any other exception in a bare
`MCPError(f"Tool execution failed: {str(e)}", original_error=e)` whose
code is the constructor default `UNKNOWN_ERROR`. -/
def execute_tool (s : BaseMCPServer) (tool_name : String) (args : Args) :
    Except PyExn PyVal :=
  match dictGet s.tools tool_name with
  | none =>
      Except.error (mkValidationError ("Tool " ++ sq ++ tool_name ++ sq ++ " not found")
        none none)
  | some td =>
      let body : Except PyExn PyVal :=
        match validate_arguments td args with
        | .error e => .error e
        | .ok _ =>
            match td.function args with
            | .error e => .error e
            | .ok r => .ok (coerce_result r)
      match body with
      | .ok r => .ok r
      | .error e =>
          if isinstance e "MCPError" then .error e
          else .error (mkMCPError ("Tool execution failed: " ++ e.message) (some e))

/-- One entry of a `list_tools` response: the `Tool(name, description,
inputSchema)` built by `SDKWrapper._handle_list_tools`. -/
structure ToolEntry where
  name : String
  description : String
  inputSchema : Parameters

/-- Method `SDKWrapper._handle_list_tools` (`core/__init__.py` lines
354-365): one entry per tool-dictionary item, in insertion order, whose
name is the dictionary key and whose input schema is the stored
parameter schema. -/
def handle_list_tools (s : BaseMCPServer) : List ToolEntry :=
  s.tools.map (fun kv =>
    { name := kv.1, description := kv.2.description, inputSchema := kv.2.parameters })

/-- Observable actions a `run()` call performs, beyond mutating the
adapter's own state: constructing the external server object,
replaying registrations onto it, installing request handlers, and
starting the (blocking) stdio transport loop. -/
inductive RunEvent where
  | createFastMCP
  | registerToolExt (name : String)
  | registerResourceExt (uri : String)
  | createSDKServer
  | setupHandlers
  | startTransportLoop
deriving DecidableEq, Repr

/-- Adapter construction state: whether `self._server` is populated
(`self._server is None` initially, `core/__init__.py` line 76). -/
structure AdapterState where
  server_constructed : Bool
deriving DecidableEq, Repr

/-- Method `FastMCPWrapper.run` (`core/__init__.py` lines 288-296): on
first call, construct the external FastMCP server and replay every
registered tool and resource onto it; on later calls do nothing (the
method merely returns the stored server — it never starts a loop
itself). -/
def fastmcp_run (s : BaseMCPServer) (st : AdapterState) :
    AdapterState × List RunEvent :=
  if st.server_constructed then (st, [])
  else
    ({ server_constructed := true },
     RunEvent.createFastMCP ::
       (s.tools.map (fun kv => RunEvent.registerToolExt kv.1) ++
        s.resources.map (fun kv => RunEvent.registerResourceExt kv.1)))

/-- Method `SDKWrapper.run` (`core/__init__.py` lines 337-347): server
construction and handler installation are guarded by the
`self._server is None` check, but `asyncio.run(run_server())` — which
creates a stdio transport and runs the server on it — executes on every
call, outside the guard. -/
def sdk_run (_s : BaseMCPServer) (st : AdapterState) :
    AdapterState × List RunEvent :=
  let constructed :=
    if st.server_constructed then (st, ([] : List RunEvent))
    else ({ server_constructed := true }, [RunEvent.createSDKServer, RunEvent.setupHandlers])
  (constructed.1, constructed.2 ++ [RunEvent.startTransportLoop])

/-- Stand-in for `traceback.format_exc()`: the actual stack text is a
runtime artifact outside the embedding; only its presence or absence in
the details mapping is observable to the claims. -/
def format_exc : String := "Traceback (most recent call last)"

/-- Method `MCPError.to_response` (`errors/__init__.py` lines 88-94). -/
def to_response (e : PyExn) : ErrorResponse :=
  { code := e.code.value, message := e.message, details := e.details, trace_id := none }

/-- The `if self.include_traceback: response.details["traceback"] = ...`
pattern shared by several default handlers. -/
def with_tb (tb : Bool) (r : ErrorResponse) : ErrorResponse :=
  if tb then { r with details := dictSet r.details "traceback" format_exc } else r

/-- Handler method `_handle_validation_error` (`errors/__init__.py` lines
255-260); the flag argument is the handler's `include_traceback`. -/
def handle_validation_error (tb : Bool) (e : PyExn) : ErrorResponse :=
  with_tb tb (to_response e)

/-- Handler method `_handle_auth_error` (lines 262-266): never attaches
a traceback. -/
def handle_auth_error (_tb : Bool) (e : PyExn) : ErrorResponse :=
  to_response e

/-- Handler method `_handle_api_error` (lines 268-273). -/
def handle_api_error (tb : Bool) (e : PyExn) : ErrorResponse :=
  with_tb tb (to_response e)

/-- Handler method `_handle_timeout_error` (lines 275-277). -/
def handle_timeout_error (_tb : Bool) (e : PyExn) : ErrorResponse :=
  to_response e

/-- Handler method `_handle_tool_error` (lines 279-284). -/
def handle_tool_error (tb : Bool) (e : PyExn) : ErrorResponse :=
  with_tb tb (to_response e)

/-- Handler method `_handle_config_error` (lines 286-288). -/
def handle_config_error (_tb : Bool) (e : PyExn) : ErrorResponse :=
  to_response e

/-- Handler method `_handle_mcp_error` (lines 290-295). -/
def handle_mcp_error (tb : Bool) (e : PyExn) : ErrorResponse :=
  with_tb tb (to_response e)

/-- Handler method `_handle_generic_error` (lines 297-310): classify as
`UNKNOWN_ERROR`, message `str(error)`, recording the runtime type name
under `error_type`. -/
def handle_generic_error (tb : Bool) (e : PyExn) : ErrorResponse :=
  let details := [("error_type", e.typeName)]
  let details := if tb then dictSet details "traceback" format_exc else details
  { code := ErrorCode.UNKNOWN_ERROR.value, message := e.message,
    details := details, trace_id := none }

/-- Conversion functions stored in `error_mappings`: bound methods of the
handler, so they receive its `include_traceback` flag. -/
abbrev HandlerFn := Bool → PyExn → ErrorResponse

/-- The dictionary built by `_setup_default_mappings` (`errors/__init__.py`
lines 218-229), in its insertion order; keys are the exception class
names. -/
def default_mappings : List (String × HandlerFn) :=
  [("ValidationError", handle_validation_error),
   ("AuthenticationError", handle_auth_error),
   ("APIError", handle_api_error),
   ("TimeoutError", handle_timeout_error),
   ("ToolError", handle_tool_error),
   ("ConfigurationError", handle_config_error),
   ("MCPError", handle_mcp_error),
   ("Exception", handle_generic_error)]

/-- Class `ErrorHandler` (`errors/__init__.py` lines 200-229). -/
structure ErrorHandler where
  include_traceback : Bool
  error_mappings : List (String × HandlerFn)

/-- Constructor `ErrorHandler(include_traceback)`. -/
def ErrorHandler.new (tb : Bool) : ErrorHandler :=
  { include_traceback := tb, error_mappings := default_mappings }

/-- Method `ErrorHandler.handle_error` (`errors/__init__.py` lines
231-247): scan `error_mappings` in insertion order, apply the first
handler whose class the error is an instance of; fall back to
`_handle_generic_error` if none matches. -/
def handle_error (h : ErrorHandler) (e : PyExn) : ErrorResponse :=
  match h.error_mappings.find? (fun kv => isinstance e kv.1) with
  | some kv => kv.2 h.include_traceback e
  | none => handle_generic_error h.include_traceback e

/-- Method `ErrorHandler.register_error_handler` (`errors/__init__.py`
lines 249-253): plain dictionary assignment
`self.error_mappings[error_type] = handler`; the registered function
does not receive the traceback flag. -/
def register_error_handler (h : ErrorHandler) (cls : String)
    (f : PyExn → ErrorResponse) : ErrorHandler :=
  { h with error_mappings := dictSet h.error_mappings cls (fun _ e => f e) }

/-! Helper lemmas about association-list dictionaries. -/

theorem find?_append_of_isSome {α : Type} (p : α → Bool) (l₁ l₂ : List α)
    (h : (l₁.find? p).isSome) : (l₁ ++ l₂).find? p = l₁.find? p := by
  induction l₁ with
  | nil => simp at h
  | cons a l ih =>
      by_cases hp : p a
      · simp [List.find?_cons, hp]
      · simp only [List.find?_cons, hp] at h ⊢
        simp only [List.cons_append, List.find?_cons, hp]
        exact ih h

theorem find?_isSome_of_mem {α : Type} (p : α → Bool) (l : List α) (x : α)
    (hx : x ∈ l) (hp : p x = true) : (l.find? p).isSome := by
  induction l with
  | nil => simp at hx
  | cons a l ih =>
      rcases List.mem_cons.mp hx with h | h
      · subst h; simp [List.find?_cons, hp]
      · by_cases hpa : p a
        · simp [List.find?_cons, hpa]
        · simp only [List.find?_cons, hpa]
          exact ih h

theorem find?_append_eq_right {α : Type} (p : α → Bool) (l₁ l₂ : List α)
    (h : l₁.find? p = none) : (l₁ ++ l₂).find? p = l₂.find? p := by
  induction l₁ with
  | nil => simp
  | cons a l ih =>
      by_cases hp : p a
      · simp [List.find?_cons, hp] at h
      · simp only [List.find?_cons, hp] at h
        simp only [List.cons_append, List.find?_cons, hp]
        exact ih h

theorem map_eq_self_of_fix {α : Type} {l : List α} {f : α → α}
    (h : ∀ x ∈ l, f x = x) : l.map f = l := by
  induction l with
  | nil => rfl
  | cons a t ih =>
      simp only [List.map_cons, h a (List.mem_cons_self a t)]
      rw [ih fun x hx => h x (List.mem_cons_of_mem a hx)]

theorem dictGet_map_replace {α : Type} (d : List (String × α)) (k : String) (v : α)
    (hany : d.any (fun kv => kv.1 == k) = true) :
    dictGet (d.map (fun kv => if kv.1 == k then (k, v) else kv)) k = some v := by
  induction d with
  | nil => simp at hany
  | cons a l ih =>
      by_cases ha : a.1 == k
      · simp only [List.map_cons, if_pos ha]
        simp [dictGet, List.find?_cons]
      · have haf : (a.1 == k) = false := by simpa using ha
        simp only [List.any_cons, haf, Bool.false_or] at hany
        simp only [List.map_cons, haf]
        simpa [dictGet, List.find?_cons, haf] using ih hany

theorem dictGet_dictSet_self {α : Type} (d : List (String × α)) (k : String) (v : α) :
    dictGet (dictSet d k v) k = some v := by
  unfold dictSet
  by_cases hany : d.any (fun kv => kv.1 == k)
  · rw [if_pos hany]
    exact dictGet_map_replace d k v hany
  · rw [if_neg hany]
    have hnone : d.find? (fun kv => kv.1 == k) = none := by
      rw [List.find?_eq_none]
      intro x hx hpx
      exact hany (List.any_eq_true.mpr ⟨x, hx, hpx⟩)
    unfold dictGet
    rw [find?_append_eq_right _ _ _ hnone]
    simp [List.find?_cons]

theorem filter_key_not_mem {α : Type} (d : List (String × α)) (k : String)
    (h : ∀ kv ∈ d, (kv.1 == k) = false) :
    d.filter (fun kv => kv.1 == k) = [] := by
  rw [List.filter_eq_nil_iff]
  intro x hx
  simp [h x hx]

theorem filter_key_map_replace {α : Type} (d : List (String × α)) (k : String) (v : α)
    (h : (d.map Prod.fst).Nodup) (hany : d.any (fun kv => kv.1 == k) = true) :
    (d.map (fun kv => if kv.1 == k then (k, v) else kv)).filter (fun kv => kv.1 == k) =
      [(k, v)] := by
  induction d with
  | nil => simp at hany
  | cons a l ih =>
      simp only [List.map_cons, List.nodup_cons] at h
      by_cases ha : a.1 == k
      · have hak : a.1 = k := by simpa using ha
        have hknotin : ∀ kv ∈ l, (kv.1 == k) = false := by
          intro kv hkv
          have hne : kv.1 ≠ k := by
            intro hkk
            apply h.1
            rw [hak, ← hkk]
            exact List.mem_map_of_mem Prod.fst hkv
          simpa using hne
        have hmapid : l.map (fun kv => if kv.1 == k then (k, v) else kv) = l := by
          apply map_eq_self_of_fix
          intro x hx
          rw [if_neg (by simp [hknotin x hx])]
        simp only [List.map_cons, if_pos ha, hmapid]
        simp only [List.filter_cons, beq_self_eq_true, if_true]
        rw [filter_key_not_mem l k hknotin]
      · have haf : (a.1 == k) = false := by simpa using ha
        simp only [List.any_cons, haf, Bool.false_or] at hany
        simp only [List.map_cons, if_neg ha]
        simp only [List.filter_cons, haf]
        simpa using ih h.2 hany

theorem filter_key_dictSet {α : Type} (d : List (String × α)) (k : String) (v : α)
    (h : (d.map Prod.fst).Nodup) :
    (dictSet d k v).filter (fun kv => kv.1 == k) = [(k, v)] := by
  unfold dictSet
  by_cases hany : d.any (fun kv => kv.1 == k)
  · rw [if_pos hany]
    exact filter_key_map_replace d k v h hany
  · rw [if_neg hany]
    have hfd : ∀ kv ∈ d, (kv.1 == k) = false := by
      intro kv hkv
      by_contra hc
      exact hany (List.any_eq_true.mpr ⟨kv, hkv, by simpa using hc⟩)
    rw [List.filter_append, filter_key_not_mem d k hfd]
    simp [List.filter_cons]

theorem extract_parameters_required (sig : List SigParam) :
    (extract_parameters sig).required =
      (sig.filter (fun p => !(p.name == "self") && !p.hasDefault)).map SigParam.name := by
  induction sig with
  | nil => rfl
  | cons p rest ih =>
      by_cases hs : p.name == "self"
      · simp [extract_parameters, hs, List.filter_cons, ih]
      · have hsf : (p.name == "self") = false := by simpa using hs
        by_cases hd : p.hasDefault
        · simp [extract_parameters, hsf, hd, List.filter_cons, ih]
        · have hdf : p.hasDefault = false := by simpa using hd
          simp [extract_parameters, hsf, hdf, List.filter_cons, ih]

theorem filter_listed (d : List (String × ToolDefinition)) (n : String) (td : ToolDefinition)
    (hnd : (d.map Prod.fst).Nodup) :
    ((dictSet d n td).map (fun kv =>
        ({ name := kv.1, description := kv.2.description,
           inputSchema := kv.2.parameters } : ToolEntry))).filter
      (fun e => e.name == n) =
      [{ name := n, description := td.description, inputSchema := td.parameters }] := by
  rw [List.filter_map]
  have hcomp : ((fun e : ToolEntry => e.name == n) ∘
      (fun kv : String × ToolDefinition =>
        ({ name := kv.1, description := kv.2.description,
           inputSchema := kv.2.parameters } : ToolEntry))) =
      fun kv : String × ToolDefinition => kv.1 == n := rfl
  rw [hcomp, filter_key_dictSet d n td hnd]
  rfl

/-- An error raised through `execute_tool`, projected to its taxonomy code. -/
def errorCodeOf : Except PyExn PyVal → Option ErrorCode
  | .error e => some e.code
  | .ok _ => none

/-- An error raised through `execute_tool`, projected to the `parameter`
entry of its details mapping. -/
def errorParamOf : Except PyExn PyVal → Option String
  | .error e => dictGet e.details "parameter"
  | .ok _ => none

theorem isinstance_validation_mcp (m : String) (pa ex : Option String) :
    isinstance (mkValidationError m pa ex) "MCPError" = true := rfl

/-! Concrete fixtures used by claim witnesses and counterexamples. -/

/-- An empty registry. -/
def emptyServer : BaseMCPServer := { name := "s", tools := [], resources := [] }

/-- A callable `t(p: str)` with one required parameter. -/
def oneParamFunc : PyFunc :=
  { name := "t", doc := some "doc",
    sig := [{ name := "p", annotation := some (.base .str), hasDefault := false }],
    isAsync := false, body := fun _ => .ok .pyNone }

/-- Registry holding only `oneParamFunc` under its own name. -/
def oneParamServer : BaseMCPServer := registerTool emptyServer none none oneParamFunc

/-- A foreign (non-`MCPError`) exception, e.g. a `ValueError`. -/
def valueError : PyExn := .mk ["ValueError", "Exception"] "boom" ErrorCode.UNKNOWN_ERROR [] none

/-- A callable with no parameters that raises `valueError`. -/
def raisingFunc : PyFunc :=
  { name := "t", doc := none, sig := [], isAsync := false, body := fun _ => .error valueError }

/-- Registry holding only `raisingFunc`. -/
def raisingServer : BaseMCPServer := registerTool emptyServer none none raisingFunc

/-! Claim C1. -/

/-- C1 (counterexample): executing an unregistered tool name on an empty
registry raises a failure whose code is `INVALID_PARAMETER`, not the
`TOOL_NOT_FOUND` the claim states: `_execute_tool` raises a
`ValidationError`, whose constructor hard-codes
`ErrorCode.INVALID_PARAMETER`, and `ErrorCode.TOOL_NOT_FOUND` is never
raised anywhere in the framework. -/
theorem C1_counterexample :
    errorCodeOf (execute_tool emptyServer "missing" []) = some ErrorCode.INVALID_PARAMETER
    ∧ ErrorCode.INVALID_PARAMETER ≠ ErrorCode.TOOL_NOT_FOUND := by
  exact ⟨rfl, by decide⟩

/-- C1 (amended): for every tool name `n` not present in the registry and
every argument mapping, `_execute_tool` fails with a `ValidationError`
carrying message `Tool '<n>' not found` and code `INVALID_PARAMETER`
(the `tool-not-found` enum member exists but is unused). -/
theorem C1_tool_not_found (s : BaseMCPServer) (n : String) (args : Args)
    (h : dictGet s.tools n = none) :
    execute_tool s n args =
      .error (mkValidationError ("Tool " ++ sq ++ n ++ sq ++ " not found") none none)
    ∧ (mkValidationError ("Tool " ++ sq ++ n ++ sq ++ " not found") none none).code =
        ErrorCode.INVALID_PARAMETER := by
  constructor
  · unfold execute_tool
    rw [h]
  · rfl

/-- C1 (witness): the amended statement at the empty registry. -/
theorem C1_witness :
    execute_tool emptyServer "missing" [] =
      .error (mkValidationError ("Tool " ++ sq ++ "missing" ++ sq ++ " not found") none none) :=
  (C1_tool_not_found emptyServer "missing" [] rfl).1

/-! Claim C2. -/

/-- C2 (counterexample): omitting the required parameter `p` of a
registered tool raises a failure whose code is `INVALID_PARAMETER`, not
the `MISSING_PARAMETER` the claim states: the missing-parameter branch of
`_validate_arguments` raises a `ValidationError`, which hard-codes
`ErrorCode.INVALID_PARAMETER`; `ErrorCode.MISSING_PARAMETER` is never
used. -/
theorem C2_counterexample :
    errorCodeOf (execute_tool oneParamServer "t" []) = some ErrorCode.INVALID_PARAMETER
    ∧ ErrorCode.INVALID_PARAMETER ≠ ErrorCode.MISSING_PARAMETER := by
  exact ⟨rfl, by decide⟩

/-- C2 (amended): when some required parameter is absent,
`_execute_tool` fails with a `ValidationError` of code
`INVALID_PARAMETER` (not a distinct missing-parameter kind) whose message
and `parameter` detail name the first missing required parameter — which
is `p` whenever `p` is the earliest one absent — and the registered
callable is never invoked: the result is the same fixed error for every
choice of callable body. -/
theorem C2_missing_parameter (s : BaseMCPServer) (n p : String) (td : ToolDefinition)
    (args : Args) (g : ToolFn)
    (hlook : dictGet s.tools n = some td)
    (hmiss : findMissing td.parameters.required args = some p) :
    execute_tool s n args =
      .error (mkValidationError ("Missing required parameter: " ++ p) (some p) none)
    ∧ execute_tool { s with tools := dictSet s.tools n { td with function := g } } n args =
        .error (mkValidationError ("Missing required parameter: " ++ p) (some p) none)
    ∧ (mkValidationError ("Missing required parameter: " ++ p) (some p) none).code =
        ErrorCode.INVALID_PARAMETER := by
  refine ⟨?_, ?_, rfl⟩
  · simp only [execute_tool, hlook, validate_arguments, hmiss]
    rw [if_pos (isinstance_validation_mcp _ _ _)]
  · simp only [execute_tool, dictGet_dictSet_self, validate_arguments, hmiss]
    rw [if_pos (isinstance_validation_mcp _ _ _)]

/-- C2 (witness): the amended statement at `oneParamServer` with `p`
absent. -/
theorem C2_witness :
    execute_tool oneParamServer "t" [] =
      .error (mkValidationError ("Missing required parameter: " ++ "p") (some "p") none) :=
  (C2_missing_parameter oneParamServer "t" "p" _ [] (fun _ => .ok .pyNone) rfl rfl).1

/-! Claim C3. -/

/-- C3 (counterexample): a registered callable raising a foreign
exception is wrapped by `_execute_tool` in a bare `MCPError` whose code
is the constructor default `UNKNOWN_ERROR`, not the
`TOOL_EXECUTION_FAILED` the claim states (only the unused `ToolError`
subclass carries that code). -/
theorem C3_counterexample :
    errorCodeOf (execute_tool raisingServer "t" []) = some ErrorCode.UNKNOWN_ERROR
    ∧ ErrorCode.UNKNOWN_ERROR ≠ ErrorCode.TOOL_EXECUTION_FAILED := by
  exact ⟨rfl, by decide⟩

/-- C3 (amended): an exception raised by the callable that is already an
`MCPError` propagates unchanged; any other exception is wrapped in
`MCPError("Tool execution failed: " + str(e), original_error=e)` — the
original exception is preserved as the wrapped cause, but the wrapper's
code is the `MCPError` default `UNKNOWN_ERROR`, not
`TOOL_EXECUTION_FAILED`. -/
theorem C3_exception_wrapping (s : BaseMCPServer) (n : String) (td : ToolDefinition)
    (args : Args) (e : PyExn)
    (hlook : dictGet s.tools n = some td)
    (hval : validate_arguments td args = .ok ())
    (hrun : td.function args = .error e) :
    (isinstance e "MCPError" = true → execute_tool s n args = .error e)
    ∧ (isinstance e "MCPError" = false →
        execute_tool s n args =
          .error (mkMCPError ("Tool execution failed: " ++ e.message) (some e))
        ∧ (mkMCPError ("Tool execution failed: " ++ e.message) (some e)).code =
            ErrorCode.UNKNOWN_ERROR
        ∧ (mkMCPError ("Tool execution failed: " ++ e.message) (some e)).original = some e) := by
  constructor
  · intro hm
    simp only [execute_tool, hlook, hval, hrun]
    rw [if_pos hm]
  · intro hm
    refine ⟨?_, rfl, rfl⟩
    simp only [execute_tool, hlook, hval, hrun]
    rw [if_neg (by simp [hm])]

/-- C3 (witness): the amended statement at `raisingServer`, whose tool
raises a `ValueError`. -/
theorem C3_witness :
    execute_tool raisingServer "t" [] =
      .error (mkMCPError ("Tool execution failed: " ++ "boom") (some valueError)) :=
  ((C3_exception_wrapping raisingServer "t" _ [] valueError rfl rfl rfl).2 rfl).1

/-! Claim C4. -/

/-- C4 (confirmed): registering a callable under a name and then listing
tools yields exactly one entry under that name; its input schema is the
inferred parameter contract, whose required list is exactly the declared
parameters (excluding `self`) without default values, in declaration
order.  The uniqueness hypothesis is the dictionary invariant of
`self.tools` (Python dict keys are unique by construction). -/
theorem C4_round_trip (s : BaseMCPServer) (nm ds : Option String) (f : PyFunc)
    (hnd : (s.tools.map Prod.fst).Nodup) :
    (handle_list_tools (registerTool s nm ds f)).filter
        (fun e => e.name == resolveOr nm f.name) =
      [{ name := resolveOr nm f.name,
         description := resolveOr ds (resolveOr f.doc ("Tool: " ++ resolveOr nm f.name)),
         inputSchema := extract_parameters f.sig }]
    ∧ (extract_parameters f.sig).required =
        (f.sig.filter (fun p => !(p.name == "self") && !p.hasDefault)).map SigParam.name := by
  constructor
  · exact filter_listed s.tools (resolveOr nm f.name)
      { name := resolveOr nm f.name, function := f.body,
        description := resolveOr ds (resolveOr f.doc ("Tool: " ++ resolveOr nm f.name)),
        parameters := extract_parameters f.sig, async_tool := f.isAsync } hnd
  · exact extract_parameters_required f.sig

/-- A callable `t(p: str, q: int = ...)` used by the C4 witness: one
required and one defaulted parameter. -/
def c4func : PyFunc :=
  { name := "t", doc := some "doc",
    sig := [{ name := "p", annotation := some (.base .str), hasDefault := false },
            { name := "q", annotation := some (.base .int), hasDefault := true }],
    isAsync := false, body := fun _ => .ok .pyNone }

/-- C4 (witness): the round trip at an empty registry with `c4func`. -/
theorem C4_witness :
    (handle_list_tools (registerTool emptyServer none none c4func)).filter
        (fun e => e.name == resolveOr none c4func.name) =
      [{ name := "t", description := "doc",
         inputSchema := { properties := [("p", "string"), ("q", "integer")],
                          required := ["p"] } }] :=
  (C4_round_trip emptyServer none none c4func (by decide)).1

/-! Claim C5. -/

/-- C5 (counterexample): calling `run()` a second time on the
explicit-dispatch adapter starts the stdio transport loop again —
`asyncio.run(run_server())` sits outside the `self._server is None`
guard in `SDKWrapper.run` — so a second `run` is not free of transport
starts as the claim states. -/
theorem C5_counterexample :
    (sdk_run emptyServer (sdk_run emptyServer { server_constructed := false }).1).2 =
      [RunEvent.startTransportLoop] := rfl

/-- C5 (amended): a second `run()` constructs no second external server
and performs no second registration or handler installation on either
adapter; for the pass-through adapter (`FastMCPWrapper`) the second call
is a complete no-op, but for the explicit-dispatch adapter
(`SDKWrapper`) every call — including the second — starts the stdio
transport loop again, because only server construction and handler
setup are behind the constructed-once guard. -/
theorem C5_second_run (s : BaseMCPServer) :
    fastmcp_run s (fastmcp_run s { server_constructed := false }).1 =
      ((fastmcp_run s { server_constructed := false }).1, [])
    ∧ sdk_run s (sdk_run s { server_constructed := false }).1 =
        ((sdk_run s { server_constructed := false }).1, [RunEvent.startTransportLoop]) :=
  ⟨rfl, rfl⟩

/-! Claim C6. -/

/-- C6 (confirmed): `_execute_tool` passes a JSON-primitive return value
(text, integer, float, boolean, list, mapping, or `None`) through
unchanged, and replaces any other object by the single-key mapping
mapping `"result"` to its textual rendering. -/
theorem C6_return_coercion (s : BaseMCPServer) (n : String) (td : ToolDefinition)
    (args : Args) (v : PyVal)
    (hlook : dictGet s.tools n = some td)
    (hval : validate_arguments td args = .ok ())
    (hrun : td.function args = .ok v) :
    execute_tool s n args = .ok (coerce_result v)
    ∧ (is_json_primitive v = true → coerce_result v = v)
    ∧ (∀ r, coerce_result (.pyObj r) = .pyDict [("result", .pyStr r)]) := by
  refine ⟨?_, ?_, fun r => rfl⟩
  · simp only [execute_tool, hlook, hval, hrun]
  · intro hp
    cases v <;> simp_all [is_json_primitive, coerce_result]

/-- A callable with no parameters returning a custom non-primitive
object whose textual form is `"custom"`. -/
def objFunc : PyFunc :=
  { name := "t", doc := none, sig := [], isAsync := false,
    body := fun _ => .ok (.pyObj "custom") }

/-- Registry holding only `objFunc`. -/
def objServer : BaseMCPServer := registerTool emptyServer none none objFunc

/-- C6 (witness): a tool returning a custom object appears in the
response as the mapping from `"result"` to its textual form. -/
theorem C6_witness :
    execute_tool objServer "t" [] = .ok (.pyDict [("result", .pyStr "custom")]) :=
  (C6_return_coercion objServer "t" _ [] (.pyObj "custom") rfl rfl rfl).1

/-! Claim C7. -/

/-- An exception instance of a user-defined class that subclasses
`Exception` directly (not part of the framework hierarchy). -/
def customExn : PyExn :=
  .mk ["CustomError", "Exception"] "custom boom" ErrorCode.UNKNOWN_ERROR [] none

/-- A custom conversion function a collaborator might register for
`CustomError`. -/
def customHandler : PyExn → ErrorResponse :=
  fun _ => { code := "CUSTOM", message := "handled", details := [], trace_id := none }

/-- C7 (counterexample): registering a handler for the new category
`CustomError` and then handling a `CustomError` instance selects the
generic `Exception` catch-all (code `UNKNOWN_ERROR`), not the custom
handler (which would answer code `CUSTOM`): dictionary assignment
appends a new key after the defaults, so the catch-all — checked
earlier in insertion order and matching every exception — shadows it.
Custom pairs therefore do not take effect ahead of the built-ins. -/
theorem C7_counterexample :
    (handle_error (register_error_handler (ErrorHandler.new false) "CustomError"
        customHandler) customExn).code = "UNKNOWN_ERROR"
    ∧ (handle_error (register_error_handler (ErrorHandler.new false) "CustomError"
        customHandler) customExn).code ≠ "CUSTOM" := by
  exact ⟨rfl, by decide⟩

/-- C7 (amended): `handle_error` scans the (category → handler) pairs in
dictionary insertion order.  For the built-in defaults that order is
most-specific-first and ends with a catch-all bound to `Exception`, so
an exception matching no specific built-in category is classified as
`UNKNOWN_ERROR` with its runtime type name recorded under `error_type`.
A custom handler registered for a category already among the defaults
replaces that entry in place and takes effect; but a handler registered
for a new category is appended after the `Exception` catch-all and is
never selected — dispatch is unchanged for every exception. -/
theorem C7_dispatch (f : PyExn → ErrorResponse) :
    (∀ ev : PyExn, isinstance ev "ValidationError" = true →
        handle_error (register_error_handler (ErrorHandler.new false) "ValidationError" f)
          ev = f ev)
    ∧ (∀ e : PyExn, isinstance e "Exception" = true →
        handle_error (register_error_handler (ErrorHandler.new false) "CustomError" f) e =
          handle_error (ErrorHandler.new false) e)
    ∧ (∀ e : PyExn,
        isinstance e "ValidationError" = false →
        isinstance e "AuthenticationError" = false →
        isinstance e "APIError" = false →
        isinstance e "TimeoutError" = false →
        isinstance e "ToolError" = false →
        isinstance e "ConfigurationError" = false →
        isinstance e "MCPError" = false →
        isinstance e "Exception" = true →
        handle_error (ErrorHandler.new false) e =
          { code := "UNKNOWN_ERROR", message := e.message,
            details := [("error_type", e.typeName)], trace_id := none }) := by
  refine ⟨?_, ?_, ?_⟩
  · intro ev hev
    have hmap : (register_error_handler (ErrorHandler.new false) "ValidationError"
        f).error_mappings =
        ("ValidationError", (fun _ e => f e : HandlerFn)) ::
          [("AuthenticationError", handle_auth_error),
           ("APIError", handle_api_error),
           ("TimeoutError", handle_timeout_error),
           ("ToolError", handle_tool_error),
           ("ConfigurationError", handle_config_error),
           ("MCPError", handle_mcp_error),
           ("Exception", handle_generic_error)] := rfl
    unfold handle_error
    rw [hmap, List.find?_cons]
    simp [hev]
  · intro e hexc
    have hmap : (register_error_handler (ErrorHandler.new false) "CustomError"
        f).error_mappings =
        default_mappings ++ [("CustomError", (fun _ e => f e : HandlerFn))] := rfl
    have hsome : (default_mappings.find? (fun kv => isinstance e kv.1)).isSome := by
      apply find?_isSome_of_mem _ _ ("Exception", handle_generic_error)
      · simp [default_mappings]
      · exact hexc
    unfold handle_error
    rw [hmap, find?_append_of_isSome _ _ _ hsome]
    rfl
  · intro e hv hau hap hti hto hc hm hexc
    unfold handle_error ErrorHandler.new default_mappings
    simp only [List.find?_cons, hv, hau, hap, hti, hto, hc, hm, hexc]
    rfl

/-- C7 (witness): the override part of the amended statement at a
concrete `ValidationError` instance and the `customHandler` conversion
function. -/
theorem C7_witness :
    handle_error (register_error_handler (ErrorHandler.new false) "ValidationError"
        customHandler) (mkValidationError "m" none none) =
      customHandler (mkValidationError "m" none none) :=
  (C7_dispatch customHandler).1 (mkValidationError "m" none none) rfl

/-! Claim C8. -/

/-- A callable `t(a: int, q: int)` with two required integer
parameters. -/
def twoIntFunc : PyFunc :=
  { name := "t", doc := none,
    sig := [{ name := "a", annotation := some (.base .int), hasDefault := false },
            { name := "q", annotation := some (.base .int), hasDefault := false }],
    isAsync := false, body := fun _ => .ok .pyNone }

/-- Registry holding only `twoIntFunc`. -/
def twoIntServer : BaseMCPServer := registerTool emptyServer none none twoIntFunc

/-- Arguments supplying text values for both integer parameters. -/
def twoStrArgs : Args := [("a", .pyStr "x"), ("q", .pyStr "y")]

/-- C8 (counterexample): with both integer parameters `a` and `q` given
text values, the failure's details name `a` — the first mismatching
argument in mapping order — not `q`, although `q` also satisfies the
claim's premise.  The claim's universally quantified conclusion
("details name q") therefore fails on this argument mapping. -/
theorem C8_counterexample :
    errorParamOf (execute_tool twoIntServer "t" twoStrArgs) = some "a"
    ∧ (some "a" : Option String) ≠ some "q" := by
  exact ⟨rfl, by decide⟩

/-- C8 (amended): when every required parameter is present and some
supplied argument fails its declared tag, `_execute_tool` fails with an
`INVALID_PARAMETER` `ValidationError` naming the first mismatching
argument in mapping order and its expected tag — `q` whenever `q` is
the earliest mismatch (in particular whenever it is the only one); a
text value always fails the integer tag. -/
theorem C8_type_mismatch (s : BaseMCPServer) (n q et : String) (td : ToolDefinition)
    (args : Args)
    (hlook : dictGet s.tools n = some td)
    (hreq : findMissing td.parameters.required args = none)
    (hte : findTypeError td.parameters.properties args = some (q, et)) :
    execute_tool s n args =
      .error (mkValidationError ("Invalid type for parameter " ++ q) (some q) (some et))
    ∧ (∀ txt : String, validate_type (.pyStr txt) "integer" = false)
    ∧ (mkValidationError ("Invalid type for parameter " ++ q) (some q) (some et)).code =
        ErrorCode.INVALID_PARAMETER := by
  refine ⟨?_, fun txt => rfl, rfl⟩
  simp only [execute_tool, hlook, validate_arguments, hreq, hte]
  rw [if_pos (isinstance_validation_mcp _ _ _)]

/-- C8 (witness): the amended statement at `twoIntServer`, where the
first mismatching argument is `a` with expected tag `integer`. -/
theorem C8_witness :
    execute_tool twoIntServer "t" twoStrArgs =
      .error (mkValidationError ("Invalid type for parameter " ++ "a")
        (some "a") (some "integer")) :=
  (C8_type_mismatch twoIntServer "t" "a" "integer" _ twoStrArgs rfl rfl rfl).1

/-! Claim C9. -/

/-- C9 (confirmed): schema inference unwraps an optional wrapper — a
union whose non-`None` members are exactly one type `T` — to `T`'s
coarse tag; every inferred tag is one of the six coarse tags (never a
union); an absent annotation and an unrecognized one both default to
`string`. -/
theorem C9_schema_inference :
    (∀ (args : List PyBase) (t : PyBase),
        args.filter (fun a => !decide (a = PyBase.noneType)) = [t] →
        type_to_schema (.union args) = base_to_schema t)
    ∧ (∀ t : PyBase, base_to_schema t ∈
        (["string", "integer", "number", "boolean", "array", "object"] : List String))
    ∧ (∀ p : SigParam, p.annotation = none → paramSchemaOf p = "string")
    ∧ (∀ nm, type_to_schema (.otherT nm) = "string")
    ∧ (∀ nm, type_to_schema (.base (.otherB nm)) = "string") := by
  refine ⟨?_, ?_, ?_, fun nm => rfl, fun nm => rfl⟩
  · intro args t h
    simp [type_to_schema, h]
  · intro t
    cases t <;> simp [base_to_schema]
  · intro p h
    simp [paramSchemaOf, h]

/-- C9 (witness): `Optional[int]` is inferred as tag `integer`. -/
theorem C9_witness :
    ([PyBase.int, PyBase.noneType].filter (fun a => !decide (a = PyBase.noneType)) =
        [PyBase.int])
    ∧ type_to_schema (.union [PyBase.int, PyBase.noneType]) = "integer" :=
  ⟨rfl, C9_schema_inference.1 [PyBase.int, PyBase.noneType] PyBase.int rfl⟩

/-! Claim C10. -/

/-- C10 (confirmed): because Python's `bool` is a subclass of `int`,
`isinstance(True, int)` holds, so the validator accepts a boolean value
for a parameter tagged `integer` (and `number`): validation passes and
no failure is raised. -/
theorem C10_bool_accepted (q : String) (b : Bool) (td : ToolDefinition)
    (hprops : td.parameters.properties = [(q, "integer")])
    (hreq : td.parameters.required = [q]) :
    validate_type (.pyBool b) "integer" = true
    ∧ validate_type (.pyBool b) "number" = true
    ∧ validate_arguments td [(q, .pyBool b)] = .ok () := by
  refine ⟨rfl, rfl, ?_⟩
  simp [validate_arguments, findMissing, findTypeError, hreq, hprops, dictGet,
    List.find?_cons, validate_type, isinstance_int]

/-- A concrete tool whose only parameter `flag` is tagged `integer`. -/
def intFlagTool : ToolDefinition :=
  { name := "t", function := fun _ => .ok .pyNone, description := "d",
    parameters := { properties := [("flag", "integer")], required := ["flag"] },
    async_tool := false }

/-- C10 (witness): supplying `True` for the integer-tagged `flag`
passes validation. -/
theorem C10_witness :
    validate_arguments intFlagTool [("flag", .pyBool true)] = .ok () :=
  (C10_bool_accepted "flag" true intFlagTool rfl rfl).2.2

end MCPFramework
